import Mathlib

/-!
Verification development for the shell-gpt LLM-function layer and the
conversation/completion orchestration core described in the specification.

The source files under verification are:
  * sgpt/llm_functions/common/execute_shell.py  (class Function: execute,
    openai_schema)
  * sgpt/llm_functions/mac/apple_script.py      (class Function: execute,
    openai_schema)
together with the orchestration engine, completion cache, chat-session store
and REPL loop, which are exercised by tests/_integration.py; the latter
components are modelled from the specification where their source is not part
of the file set.

Subprocess execution is embedded by making the operating system an explicit
parameter: a host maps a command (or script) string to the outcome Python
observes from subprocess.Popen + communicate.  Raw process output is a byte
stream that either decodes as UTF-8 or makes bytes.decode() raise
UnicodeDecodeError; exceptions are embedded as Except.error.
-/

/-- Raw bytes captured from a process pipe.  `utf8 text` stands for a byte
stream that Python's `bytes.decode()` turns into `text`; `invalid msg` stands
for a stream that is not valid UTF-8, on which `decode()` raises
`UnicodeDecodeError` carrying `msg`. -/
inductive RawBytes where
  | utf8 (text : String)
  | invalid (msg : String)
deriving DecidableEq

/-- Python `bytes.decode()`: returns the text, or raises (Except.error) on a
stream that is not valid UTF-8. -/
def decodeBytes : RawBytes → Except String String
  | .utf8 t => .ok t
  | .invalid m => .error m

/-- Python `str.strip()`: drops leading and trailing whitespace characters. -/
def pyStrip (s : String) : String :=
  ⟨((s.data.dropWhile Char.isWhitespace).reverse.dropWhile Char.isWhitespace).reverse⟩

/-- Outcome the OS delivers for
`subprocess.Popen(cmd, shell=True, stdout=PIPE, stderr=STDOUT)` followed by
`communicate()`: either an exception raised while spawning or communicating,
or an exit code together with the single combined stdout+stderr byte stream
(stderr is redirected into stdout by `stderr=subprocess.STDOUT`). -/
inductive ShellSpawn where
  | raised (msg : String)
  | completed (exitCode : Int) (combined : RawBytes)
deriving DecidableEq

/-- Outcome the OS delivers for
`subprocess.Popen(["osascript", "-e", script], stdout=PIPE, stderr=PIPE)`
followed by `communicate()`: either an exception raised while spawning or
communicating, or an exit code together with separate stdout and stderr byte
streams. -/
inductive OsaSpawn where
  | raised (msg : String)
  | completed (exitCode : Int) (stdout : RawBytes) (stderr : RawBytes)
deriving DecidableEq

/-- Minimal JSON value model for the function schemas: strings, arrays and
objects (an object is an ordered field list). -/
inductive JsonVal where
  | str (s : String)
  | arr (xs : List JsonVal)
  | obj (fields : List (String × JsonVal))

/-- Field access on a JSON object (Python `dict[key]` / `dict.get(key)`). -/
def JsonVal.getField : JsonVal → String → Option JsonVal
  | .obj fs, k => fs.lookup k
  | _, _ => none

/-- Python `dict.get(key, default)`. -/
def JsonVal.getD (j : JsonVal) (k : String) (d : JsonVal) : JsonVal :=
  (j.getField k).getD d

/-- Top-level key list of a JSON object. -/
def JsonVal.topKeys : JsonVal → List String
  | .obj fs => fs.map (fun f => f.1)
  | _ => []

/-- The field at a path through nested JSON objects. -/
def JsonVal.getPath (j : JsonVal) : List String → Option JsonVal
  | [] => some j
  | k :: ks => (j.getField k).bind (fun v => v.getPath ks)

/-- A pydantic model as declared in source: its class docstring and its
declared fields, each field paired with the JSON sub-schema pydantic derives
for it.  In both source classes every field is declared with `Field(...)`
(no default), so every declared field is required. -/
structure FunctionModel where
  doc : String
  fields : List (String × JsonVal)

/-- Pydantic `BaseModel.model_json_schema()` for such a model: an object
schema whose `properties` come from the declared fields and whose `required`
list names every declared field (all fields use the `...` sentinel). -/
def model_json_schema (m : FunctionModel) : JsonVal :=
  .obj [("properties", .obj m.fields),
        ("required", .arr (m.fields.map (fun f => JsonVal.str f.1))),
        ("title", .str "Function"),
        ("type", .str "object")]

namespace ExecuteShell

/-- Class docstring of sgpt/llm_functions/common/execute_shell.py. -/
def doc : String := "\n    Executes a shell command and returns the output (result).\n    "

/-- The single declared pydantic field `shell_command`. -/
def functionModel : FunctionModel :=
  { doc := doc,
    fields := [("shell_command",
      .obj [("description", .str "Shell command to execute."),
            ("example", .str "ls -la"),
            ("title", .str "Shell Command"),
            ("type", .str "string")])] }

/-- `Function.execute` of execute_shell.py.  The body has no try/except:
an exception raised while spawning or communicating, and a
`UnicodeDecodeError` from `output.decode()`, both propagate to the caller
(embedded as `Except.error`).  On the normal path it returns
`"Exit code: <n>, Output:\n<text>"` built from the exit code and the decoded
combined stdout+stderr stream. -/
def execute (host : String → ShellSpawn) (shell_command : String) :
    Except String String :=
  match host shell_command with
  | .raised m => .error m
  | .completed exit_code bytes =>
    match decodeBytes bytes with
    | .error m => .error m
    | .ok output =>
      .ok ("Exit code: " ++ toString exit_code ++ ", Output:\n" ++ output)

/-- `Function.openai_schema` of execute_shell.py: wraps the pydantic schema
fields into `{"type": "function", "function": {name, description,
parameters}}`. -/
def openai_schema : JsonVal :=
  let schema := model_json_schema functionModel
  .obj [("type", .str "function"),
        ("function", .obj
          [("name", .str "execute_shell_command"),
           ("description", .str (pyStrip functionModel.doc)),
           ("parameters", .obj
             [("type", .str "object"),
              ("properties", schema.getD "properties" (.obj [])),
              ("required", schema.getD "required" (.arr []))])])]

end ExecuteShell

namespace AppleScript

/-- Class docstring of sgpt/llm_functions/mac/apple_script.py. -/
def doc : String := "\n    Executes Apple Script on macOS and returns the output (result).\n    Can be used for actions like: draft (prepare) an email, show calendar events, create a note.\n    "

/-- The single declared pydantic field `apple_script`. -/
def functionModel : FunctionModel :=
  { doc := doc,
    fields := [("apple_script",
      .obj [("description", .str "Apple Script to execute."),
            ("example", .str "tell application \"Finder\" to get the name of every disk"),
            ("title", .str "Apple Script"),
            ("type", .str "string")])] }

/-- `Function.execute` of apple_script.py.  The whole body sits inside
`try: ... except Exception as e: return f"Error: {e}"`, so a spawn exception
and a `UnicodeDecodeError` from `output.decode("utf-8")` are both captured
and returned as text.  On the normal path it returns
`"Output: " ++ stdout.decode("utf-8").strip()`; the exit code is never
inspected and the stderr pipe is discarded. -/
def execute (host : String → OsaSpawn) (apple_script : String) :
    Except String String :=
  match host apple_script with
  | .raised m => .ok ("Error: " ++ m)
  | .completed _ stdoutBytes _ =>
    match decodeBytes stdoutBytes with
    | .error m => .ok ("Error: " ++ m)
    | .ok output => .ok ("Output: " ++ pyStrip output)

/-- `Function.openai_schema` of apple_script.py: wraps the pydantic schema
fields into `{"type": "function", "function": {name, description,
parameters}}`. -/
def openai_schema : JsonVal :=
  let schema := model_json_schema functionModel
  .obj [("type", .str "function"),
        ("function", .obj
          [("name", .str "execute_apple_script"),
           ("description", .str (pyStrip functionModel.doc)),
           ("parameters", .obj
             [("type", .str "object"),
              ("properties", schema.getD "properties" (.obj [])),
              ("required", schema.getD "required" (.arr []))])])]

end AppleScript

/-- A conversation message: role (`system` / `user` / `assistant` /
`function`) and text content. -/
structure ChatMessage where
  role : String
  content : String
deriving DecidableEq

/-- Expected output variant of a role: governs permitted modes. -/
inductive Expect where
  | plain
  | shell
  | code
  | description
deriving DecidableEq

/-- A named behavioral template: system-prompt body plus expected output
variant. -/
structure RoleDefinition where
  name : String
  role_text : String
  expect : Expect
deriving DecidableEq

/-- Modelled from the spec: the built-in default role picked when no explicit
role name is given, keyed by mode (missing source: sgpt/role.py).  The
role texts are the ones the integration tests assert the stored system
message starts with. -/
def defaultRole : Expect → RoleDefinition
  | .plain => ⟨"ShellGPT", "You are ShellGPT", .plain⟩
  | .shell => ⟨"Shell Command Generator", "You are Shell Command Generator", .shell⟩
  | .code => ⟨"Code Generator", "You are Code Generator", .code⟩
  | .description => ⟨"Shell Command Descriptor", "You are Shell Command Descriptor", .description⟩

/-- The mutually exclusive mode flags of a single call (`--shell`,
`--describe-shell`, `--code`). -/
structure ModeFlags where
  shell : Bool
  describe_shell : Bool
  code : Bool
deriving DecidableEq

/-- Number of mode flags that are set. -/
def ModeFlags.activeCount (f : ModeFlags) : Nat :=
  (if f.shell then 1 else 0) + (if f.describe_shell then 1 else 0) +
    (if f.code then 1 else 0)

/-- The mode a (validated) flag set selects. -/
def ModeFlags.mode (f : ModeFlags) : Expect :=
  if f.shell then .shell
  else if f.describe_shell then .description
  else if f.code then .code
  else .plain

/-- The session store: ordered message history per named session
(one artifact per session id). -/
abbrev SessionStore := List (String × List ChatMessage)

/-- Modelled from the spec: `ChatSessionStore.load` — the stored message
sequence, empty if the session id is unknown (missing source:
sgpt/handlers/chat_handler.py). -/
def load (store : SessionStore) (sid : String) : List ChatMessage :=
  (store.lookup sid).getD []

/-- Replace (or create) the history stored under a session id. -/
def storeSet (store : SessionStore) (sid : String) (msgs : List ChatMessage) :
    SessionStore :=
  (sid, msgs) :: store.filter (fun e => e.1 ≠ sid)

/-- Modelled from the spec: the role a stored non-empty session is bound to,
read back from its first (system) message (missing source:
sgpt/handlers/chat_handler.py). -/
def boundExpect (msgs : List ChatMessage) : Option Expect :=
  msgs.head?.bind (fun m =>
    if m.content = (defaultRole .shell).role_text then some .shell
    else if m.content = (defaultRole .code).role_text then some .code
    else if m.content = (defaultRole .description).role_text then some .description
    else if m.content = (defaultRole .plain).role_text then some .plain
    else none)

/-- Configuration / validation errors detected before any remote call. -/
inductive OrchestrationError where
  | ModeConflict
  | RoleNotFound
  | RoleModeConflict
deriving DecidableEq

/-- Result of one engine run: the outcome, the session store after the call,
and how many times the completion boundary (the network) was invoked. -/
structure RunOutcome where
  result : Except OrchestrationError String
  store : SessionStore
  remoteCalls : Nat

/-- Modelled from the spec: `OrchestrationEngine.run` for a single turn with
function calling disabled (missing source: sgpt/app.py and
sgpt/handlers/).  Mode exclusivity is checked first and fails with
`ModeConflict` before any state transition or remote call; for a named
session the role/mode binding is checked against the stored first message and
fails with `RoleModeConflict` before any remote call, leaving the store
untouched; on success the outbound messages plus the assistant answer are
appended to the store as one unit. -/
def run (completion : List ChatMessage → String) (flags : ModeFlags)
    (prompt : String) (session : Option String) (store : SessionStore) :
    RunOutcome :=
  if 1 < flags.activeCount then ⟨.error .ModeConflict, store, 0⟩
  else
    let role := defaultRole flags.mode
    match session with
    | none =>
      let outbound := [⟨"system", role.role_text⟩, ⟨"user", prompt⟩]
      ⟨.ok (completion outbound), store, 1⟩
    | some sid =>
      let hist := load store sid
      match boundExpect hist with
      | some e =>
        if e = flags.mode then
          let outbound := hist ++ [⟨"user", prompt⟩]
          let answer := completion outbound
          ⟨.ok answer, storeSet store sid (outbound ++ [⟨"assistant", answer⟩]), 1⟩
        else ⟨.error .RoleModeConflict, store, 0⟩
      | none =>
        let outbound := [⟨"system", role.role_text⟩, ⟨"user", prompt⟩]
        let answer := completion outbound
        ⟨.ok answer, storeSet store sid (outbound ++ [⟨"assistant", answer⟩]), 1⟩

/-- Cache key: fingerprint inputs of a completion call — ordered messages,
model id, temperature, top-p and the offered function-schema set. -/
structure CacheKey where
  messages : List ChatMessage
  model : String
  temperature : ℚ
  top_p : ℚ
  functions : List String
deriving DecidableEq

/-- The completion cache content: stored full responses by key. -/
abbrev Cache := List (CacheKey × String)

/-- Association lookup on the cache by full key equality. -/
def cacheLookup (cache : Cache) (k : CacheKey) : Option String :=
  match cache with
  | [] => none
  | (k2, v) :: rest => if k2 = k then some v else cacheLookup rest k

/-- Modelled from the spec: `CompletionCache.get_or_compute` (missing source:
sgpt/cache.py).  Returns the response, the cache afterwards, and how many
times `compute_fn` (the remote call) was invoked: a hit returns the stored
value with zero compute invocations; a miss invokes `compute_fn` once and
stores the full result. -/
def get_or_compute (cache : Cache) (key : CacheKey) (compute_fn : Unit → String) :
    String × Cache × Nat :=
  match cacheLookup cache key with
  | some v => (v, cache, 0)
  | none =>
    let v := compute_fn ()
    (v, (key, v) :: cache, 1)

/-- The multi-line block delimiter the REPL recognizes at a line boundary. -/
def tripleQuote : String := "\"\"\""

/-- Modelled from the spec: the REPL loop input accumulation (missing source:
sgpt/handlers/repl_handler.py).  The first argument is the accumulator: `none`
outside a multi-line block, `some acc` inside one.  Outside a block, the exit
token ends the loop, an opening triple-quote delimiter starts a block, and any
other line is submitted as a prompt on its own; inside a block, lines are
accumulated until the closing delimiter, then joined with newlines and
submitted as one prompt — the delimiter lines themselves are never part of
any submitted prompt.  Returns the list of submitted prompts in order. -/
def replPrompts : Option (List String) → List String → List String
  | _, [] => []
  | none, line :: rest =>
    if line = "exit()" then []
    else if line = tripleQuote then replPrompts (some []) rest
    else line :: replPrompts none rest
  | some acc, line :: rest =>
    if line = tripleQuote then
      String.intercalate "\n" acc :: replPrompts none rest
    else replPrompts (some (acc ++ [line])) rest

/-! ## Theorems -/

/-- C1 counterexample: the claim says `execute` returns the
`"Exit code: ..."` string for every `shell_command`, but for a command whose
combined output bytes are not valid UTF-8 (for example `cat` on a binary
file) `output.decode()` raises `UnicodeDecodeError`, which `execute` does not
catch: the call raises (embedded as `Except.error`) instead of returning any
string. -/
theorem execute_shell_decode_failure_raises :
    ExecuteShell.execute
      (fun _ => ShellSpawn.completed 0
        (RawBytes.invalid "utf-8 codec cannot decode byte 0xff")) "cat image.png" =
      Except.error "utf-8 codec cannot decode byte 0xff" := rfl

/-- C1 (amended): for every `shell_command` whose process is spawned
successfully and whose combined stdout+stderr stream decodes as UTF-8,
`ExecuteShell.execute` runs the command through the host shell and returns
exactly `"Exit code: <n>, Output:\n<text>"` built from the process exit code
and the decoded combined output. -/
theorem execute_shell_output_format (host : String → ShellSpawn)
    (shell_command : String) (exitCode : Int) (text : String)
    (h : host shell_command = ShellSpawn.completed exitCode (RawBytes.utf8 text)) :
    ExecuteShell.execute host shell_command =
      Except.ok ("Exit code: " ++ toString exitCode ++ ", Output:\n" ++ text) := by
  simp [ExecuteShell.execute, h, decodeBytes]

/-- Witness for the amended C1 theorem at a concrete host and command. -/
theorem execute_shell_output_format_witness :
    ExecuteShell.execute (fun _ => ShellSpawn.completed 0 (RawBytes.utf8 "total 0"))
        "ls -la" =
      Except.ok ("Exit code: " ++ toString (0 : Int) ++ ", Output:\n" ++ "total 0") :=
  execute_shell_output_format _ "ls -la" 0 "total 0" rfl

/-- C2 counterexample: the claim says every registered function's `execute`
never raises across the dispatch boundary, yet `execute_shell.py` has no
try/except at all: when spawning or communicating raises (here an `OSError`),
the exception propagates (the embedded result is `Except.error`, not textual
output). -/
theorem execute_shell_spawn_failure_raises :
    (ExecuteShell.execute
      (fun _ => ShellSpawn.raised "OSError: cannot allocate memory") "ls").isOk =
      false := rfl

/-- C2 (amended): the AppleScript executor never raises across the dispatch
boundary — for every host behavior and script it returns some text, and an
exception raised while spawning or communicating is captured and returned as
`"Error: <message>"` — whereas the shell executor performs no such capture
(see the counterexample). -/
theorem apple_script_never_raises (host : String → OsaSpawn) (script : String) :
    (AppleScript.execute host script).isOk = true ∧
    (∀ m, host script = OsaSpawn.raised m →
      AppleScript.execute host script = Except.ok ("Error: " ++ m)) := by
  constructor
  · cases h : host script with
    | raised m => simp [AppleScript.execute, h, Except.isOk, Except.toBool]
    | completed c so se =>
      cases so with
      | utf8 t => simp [AppleScript.execute, h, decodeBytes, Except.isOk, Except.toBool]
      | invalid m => simp [AppleScript.execute, h, decodeBytes, Except.isOk, Except.toBool]
  · intro m hm
    simp [AppleScript.execute, hm]

/-- Witness for the amended C2 theorem: a spawn failure is returned as an
`"Error: ..."` string. -/
theorem apple_script_never_raises_witness :
    AppleScript.execute (fun _ => OsaSpawn.raised "boom") "tell application x" =
      Except.ok ("Error: " ++ "boom") :=
  (apple_script_never_raises (fun _ => OsaSpawn.raised "boom")
    "tell application x").2 "boom" rfl

/-- C3 counterexample: the claim says the schema supplied to the completion
boundary has exactly the shape `{name, description, parameters}`, but the
value returned by `openai_schema` is wrapped: its top-level keys are
`type` and `function`. -/
theorem openai_schema_is_wrapped :
    ExecuteShell.openai_schema.topKeys = ["type", "function"] := rfl

/-- C3 (amended): for both registered functions, the schema supplied to the
completion boundary has exactly the shape
`{type: "function", function: {name, description,
parameters: {type: object, properties, required}}}`, with `properties` and
`required` generated from the function's declared input fields. -/
theorem openai_schema_shape :
    (∀ m name, JsonVal.obj
        [("type", .str "function"),
         ("function", .obj
           [("name", .str name),
            ("description", .str (pyStrip m.doc)),
            ("parameters", .obj
              [("type", .str "object"),
               ("properties", (model_json_schema m).getD "properties" (.obj [])),
               ("required", (model_json_schema m).getD "required" (.arr []))])])] =
      JsonVal.obj
        [("type", .str "function"),
         ("function", .obj
           [("name", .str name),
            ("description", .str (pyStrip m.doc)),
            ("parameters", .obj
              [("type", .str "object"),
               ("properties", .obj m.fields),
               ("required", .arr (m.fields.map (fun f => JsonVal.str f.1)))])])]) ∧
    ExecuteShell.openai_schema = JsonVal.obj
      [("type", .str "function"),
       ("function", .obj
         [("name", .str "execute_shell_command"),
          ("description",
            .str "Executes a shell command and returns the output (result)."),
          ("parameters", .obj
            [("type", .str "object"),
             ("properties", .obj ExecuteShell.functionModel.fields),
             ("required", .arr [.str "shell_command"])])])] ∧
    AppleScript.openai_schema = JsonVal.obj
      [("type", .str "function"),
       ("function", .obj
         [("name", .str "execute_apple_script"),
          ("description",
            .str "Executes Apple Script on macOS and returns the output (result).\n    Can be used for actions like: draft (prepare) an email, show calendar events, create a note."),
          ("parameters", .obj
            [("type", .str "object"),
             ("properties", .obj AppleScript.functionModel.fields),
             ("required", .arr [.str "apple_script"])])])] :=
  ⟨fun _ _ => rfl, rfl, rfl⟩

/-- C4 counterexample: the claim says the `"Error: <message>"` branch is
reached only when an exception is raised while spawning or communicating with
the subprocess, and that every successfully spawned call returns a string
beginning with `"Output: "`; but when the spawn succeeds and the stdout bytes
are not valid UTF-8, the `UnicodeDecodeError` from `output.decode("utf-8")`
is caught by the same handler and the call returns an `"Error: ..."`
string. -/
theorem apple_script_error_branch_on_decode :
    AppleScript.execute
      (fun _ => OsaSpawn.completed 0 (RawBytes.invalid "invalid continuation byte")
        (RawBytes.utf8 "")) "get the clipboard" =
      Except.ok ("Error: " ++ "invalid continuation byte") := rfl

/-- C4 (amended): for every `apple_script` whose `osascript` subprocess is
spawned successfully and whose stdout decodes as UTF-8, `execute` returns
`"Output: "` followed by the decoded stdout with surrounding whitespace
stripped — for every exit code and every stderr stream, because the exit code
is never inspected and stderr is discarded; the `"Error: <message>"` branch
is reached exactly when an exception is raised while spawning, communicating,
or decoding. -/
theorem apple_script_output_ignores_exit_and_stderr (host : String → OsaSpawn)
    (apple_script : String) (exitCode : Int) (out : String) (errStream : RawBytes)
    (h : host apple_script =
      OsaSpawn.completed exitCode (RawBytes.utf8 out) errStream) :
    AppleScript.execute host apple_script = Except.ok ("Output: " ++ pyStrip out) := by
  simp [AppleScript.execute, h, decodeBytes]

/-- Witness for the amended C4 theorem: a failing script (exit code 1, stderr
text present) still yields the `"Output: ..."` string built from stripped
stdout. -/
theorem apple_script_output_ignores_exit_and_stderr_witness :
    AppleScript.execute
      (fun _ => OsaSpawn.completed 1 (RawBytes.utf8 "  Macintosh HD \n")
        (RawBytes.utf8 "execution error")) "get the name of every disk" =
      Except.ok ("Output: " ++ "Macintosh HD") := by
  have h := apple_script_output_ignores_exit_and_stderr
    (fun _ => OsaSpawn.completed 1 (RawBytes.utf8 "  Macintosh HD \n")
      (RawBytes.utf8 "execution error"))
    "get the name of every disk" 1 "  Macintosh HD \n" (RawBytes.utf8 "execution error") rfl
  simpa [pyStrip] using h

/-- C10: `openai_schema` is a constant of each executor (hence deterministic)
and names exactly the one declared field as required: the shell executor's
schema has function name `execute_shell_command` with required list exactly
`["shell_command"]`, the AppleScript executor's schema has function name
`execute_apple_script` with required list exactly `["apple_script"]`, and in
both `parameters.type` is `"object"`. -/
theorem openai_schema_names_and_required :
    ExecuteShell.openai_schema.getPath ["function", "name"] =
      some (.str "execute_shell_command") ∧
    ExecuteShell.openai_schema.getPath ["function", "parameters", "required"] =
      some (.arr [.str "shell_command"]) ∧
    ExecuteShell.openai_schema.getPath ["function", "parameters", "type"] =
      some (.str "object") ∧
    AppleScript.openai_schema.getPath ["function", "name"] =
      some (.str "execute_apple_script") ∧
    AppleScript.openai_schema.getPath ["function", "parameters", "required"] =
      some (.arr [.str "apple_script"]) ∧
    AppleScript.openai_schema.getPath ["function", "parameters", "type"] =
      some (.str "object") :=
  ⟨rfl, rfl, rfl, rfl, rfl, rfl⟩

/-- Writing a session and reading it back yields the written history. -/
theorem load_storeSet (store : SessionStore) (sid : String)
    (msgs : List ChatMessage) :
    load (storeSet store sid msgs) sid = msgs := by
  simp [load, storeSet, List.lookup]

/-- C5: for every prompt, session argument, store, completion boundary and
describe-shell flag value, a call requesting both shell-generation and
code-generation fails with `ModeConflict`, the store is returned unchanged
(no state transition) and the completion boundary is invoked zero times (no
network activity). -/
theorem mode_conflict_fails_fast (completion : List ChatMessage → String)
    (prompt : String) (session : Option String) (store : SessionStore)
    (dsc : Bool) :
    run completion ⟨true, dsc, true⟩ prompt session store =
      ⟨.error .ModeConflict, store, 0⟩ := by
  cases dsc <;> rfl

/-- C6: for every session and flags, when a turn on a named session completes
successfully with answer `a`, loading that session afterwards yields a
history whose last two entries are exactly the submitted user message
followed by the produced assistant message. -/
theorem session_append_atomicity (completion : List ChatMessage → String)
    (flags : ModeFlags) (prompt sid : String) (store : SessionStore)
    (a : String)
    (h : (run completion flags prompt (some sid) store).result = .ok a) :
    ∃ pre, load (run completion flags prompt (some sid) store).store sid =
      pre ++ [⟨"user", prompt⟩, ⟨"assistant", a⟩] := by
  by_cases hm : 1 < flags.activeCount
  · simp [run, hm] at h
  · cases hb : boundExpect (load store sid) with
    | none =>
      refine ⟨[⟨"system", (defaultRole flags.mode).role_text⟩], ?_⟩
      have ha : completion [⟨"system", (defaultRole flags.mode).role_text⟩,
          ⟨"user", prompt⟩] = a := by
        simp [run, hm, hb] at h
        exact h
      simp [run, hm, hb, load_storeSet, ha]
    | some e =>
      by_cases he : e = flags.mode
      · refine ⟨load store sid, ?_⟩
        have ha : completion (load store sid ++ [⟨"user", prompt⟩]) = a := by
          simp [run, hm, hb, he] at h
          exact h
        simp [run, hm, hb, he, load_storeSet, ha]
      · simp [run, hm, hb, he] at h

/-- Witness for the C6 theorem at a concrete completion boundary, flag set,
prompt, session id and empty store. -/
theorem session_append_atomicity_witness :
    ∃ pre, load (run (fun _ => "ls -la") ⟨true, false, false⟩
        "What is in current folder?" (some "temp") []).store "temp" =
      pre ++ [⟨"user", "What is in current folder?"⟩, ⟨"assistant", "ls -la"⟩] :=
  session_append_atomicity (fun _ => "ls -la") ⟨true, false, false⟩
    "What is in current folder?" "temp" [] "ls -la" rfl

/-- C7: for every completion boundary, prompt and store, a session whose
stored history was first created under the code role (`expect=code`) and is
then driven with the shell mode flag fails with `RoleModeConflict`; the store
is returned unchanged and the completion boundary is invoked zero times (no
remote call). -/
theorem role_mode_binding_conflict (completion : List ChatMessage → String)
    (prompt sid : String) (store : SessionStore) (rest : List ChatMessage)
    (h : load store sid = ⟨"system", (defaultRole .code).role_text⟩ :: rest) :
    run completion ⟨true, false, false⟩ prompt (some sid) store =
      ⟨.error .RoleModeConflict, store, 0⟩ := by
  have hb : boundExpect (load store sid) = some .code := by
    rw [h]
    rfl
  simp [run, hb, ModeFlags.mode, ModeFlags.activeCount]

/-- Witness for the C7 theorem at a concrete store holding a session created
under the code role. -/
theorem role_mode_binding_conflict_witness :
    run (fun _ => "ls") ⟨true, false, false⟩ "Change port to 443" (some "chat")
        [("chat", [⟨"system", "You are Code Generator"⟩])] =
      ⟨.error .RoleModeConflict,
        [("chat", [⟨"system", "You are Code Generator"⟩])], 0⟩ :=
  role_mode_binding_conflict (fun _ => "ls") "Change port to 443" "chat"
    [("chat", [⟨"system", "You are Code Generator"⟩])] [] rfl

/-- C8: the REPL input line sequence consisting of an opening triple-quote
delimiter line, the lines `line one` and `line two`, and a closing
triple-quote delimiter line is accumulated and submitted as the single
prompt `"line one\nline two"`, and no submitted prompt is a delimiter
line. -/
theorem repl_multiline_block :
    replPrompts none [tripleQuote, "line one", "line two", tripleQuote] =
      ["line one\nline two"] ∧
    tripleQuote ∉
      replPrompts none [tripleQuote, "line one", "line two", tripleQuote] := by
  constructor
  · rfl
  · decide

/-- C9: for every cache content in which a key is absent, `get_or_compute`
invokes the compute function exactly once for the first call; a second call
with the same key returns the value stored by the first call, performs zero
additional compute (remote) invocations, and leaves the cache unchanged. -/
theorem cache_get_or_compute_idempotent (c0 : Cache) (k : CacheKey)
    (f : Unit → String) (h : cacheLookup c0 k = none) :
    (get_or_compute c0 k f).2.2 = 1 ∧
    (get_or_compute (get_or_compute c0 k f).2.1 k f).1 =
      (get_or_compute c0 k f).1 ∧
    (get_or_compute (get_or_compute c0 k f).2.1 k f).2.2 = 0 ∧
    (get_or_compute (get_or_compute c0 k f).2.1 k f).2.1 =
      (get_or_compute c0 k f).2.1 := by
  simp [get_or_compute, h, cacheLookup]

/-- Witness for the C9 theorem at a concrete empty cache, key and compute
function. -/
theorem cache_get_or_compute_idempotent_witness :
    (get_or_compute [] ⟨[⟨"user", "capital of Czech Republic?"⟩], "gpt-4o", 0, 1, []⟩
      (fun _ => "Prague")).2.2 = 1 ∧
    (get_or_compute
      (get_or_compute [] ⟨[⟨"user", "capital of Czech Republic?"⟩], "gpt-4o", 0, 1, []⟩
        (fun _ => "Prague")).2.1
      ⟨[⟨"user", "capital of Czech Republic?"⟩], "gpt-4o", 0, 1, []⟩
      (fun _ => "Prague")).1 =
    (get_or_compute [] ⟨[⟨"user", "capital of Czech Republic?"⟩], "gpt-4o", 0, 1, []⟩
      (fun _ => "Prague")).1 ∧
    (get_or_compute
      (get_or_compute [] ⟨[⟨"user", "capital of Czech Republic?"⟩], "gpt-4o", 0, 1, []⟩
        (fun _ => "Prague")).2.1
      ⟨[⟨"user", "capital of Czech Republic?"⟩], "gpt-4o", 0, 1, []⟩
      (fun _ => "Prague")).2.2 = 0 ∧
    (get_or_compute
      (get_or_compute [] ⟨[⟨"user", "capital of Czech Republic?"⟩], "gpt-4o", 0, 1, []⟩
        (fun _ => "Prague")).2.1
      ⟨[⟨"user", "capital of Czech Republic?"⟩], "gpt-4o", 0, 1, []⟩
      (fun _ => "Prague")).2.1 =
    (get_or_compute [] ⟨[⟨"user", "capital of Czech Republic?"⟩], "gpt-4o", 0, 1, []⟩
      (fun _ => "Prague")).2.1 :=
  cache_get_or_compute_idempotent []
    ⟨[⟨"user", "capital of Czech Republic?"⟩], "gpt-4o", 0, 1, []⟩
    (fun _ => "Prague") rfl
